import Mathlib

/-!
Verification of the device-independent joystick core (`src/joystick/SDL_joystick.c`).

The C code is shallowly embedded: every mutable C structure becomes an explicit
Lean structure that is threaded through the functions, machine integers become
`Nat`/`Int` with explicit `% 2^w` where wrap-around matters, the monotonic
clock (`SDL_GetTicks`) becomes an explicit `now` argument, and the result of a
backend driver call becomes an explicit argument (the core only branches on it).
Event posting (`SDL_PushEvent`) is modelled as appending to a list of events,
with event delivery assumed enabled.

Constants that live in headers outside `src/` (`SDL_RUMBLE_RESEND_MS`,
`SDL_MAX_RUMBLE_DURATION_MS`, `SDL_LED_MIN_REPEAT_MS`) are taken as explicit
parameters of the embedded functions, so every theorem quantifies over their
value.
-/

namespace SDLJoy

/-- `SDL_JOYSTICK_AXIS_MAX` from the public SDL headers: maximum axis value. -/
def SDL_JOYSTICK_AXIS_MAX : Int := 32767

/-- Two to the sixty-fourth power: the modulus of `Uint64` tick arithmetic. -/
def U64 : Nat := 18446744073709551616

/-! ## RumbleScheduler state (`SDL_Joystick` rumble fields)

The rumble-related fields of the `SDL_Joystick` structure:
`low_frequency_rumble`, `high_frequency_rumble` (`Uint16`),
`rumble_expiration` and `rumble_resend` (`Uint64` tick values, `0` = unset). -/

structure RumbleState where
  low_frequency_rumble : Nat
  high_frequency_rumble : Nat
  rumble_expiration : Nat
  rumble_resend : Nat
deriving Repr, DecidableEq

/-- The `retval == 0` tail of `SDL_RumbleJoystick` (SDL_joystick.c:1318-1331):
record the magnitudes, then either record the expiration
(`now + SDL_min(duration_ms, SDL_MAX_RUMBLE_DURATION_MS)`, clamped to the
non-zero sentinel `1`) or clear both timers. -/
def rumbleRecordTimers (maxDur now : Nat) (s : RumbleState)
    (low_frequency_rumble high_frequency_rumble duration_ms : Nat) : RumbleState :=
  let s2 := { s with low_frequency_rumble := low_frequency_rumble,
                     high_frequency_rumble := high_frequency_rumble }
  if (low_frequency_rumble ≠ 0 ∨ high_frequency_rumble ≠ 0) ∧ duration_ms ≠ 0 then
    let e := (now + min duration_ms maxDur) % U64
    { s2 with rumble_expiration := if e = 0 then 1 else e }
  else
    { s2 with rumble_expiration := 0, rumble_resend := 0 }

/-- Shallow embedding of `SDL_RumbleJoystick` (SDL_joystick.c:1301-1336).

`maxDur` is `SDL_MAX_RUMBLE_DURATION_MS` and `resendMs` is
`SDL_RUMBLE_RESEND_MS` (both defined in headers outside `src/`).
`driverResult` is the value `joystick->driver->Rumble(...)` returns if it is
called; `now` is the value of `SDL_GetTicks()` (the two calls inside the C
function are modelled as reading the same tick).  If the magnitudes equal
the active ones the driver is skipped and `retval = 0`; otherwise the driver
is called and `rumble_resend` is recorded before `retval` is inspected.
Returns the new state, the `int` return value, and whether the driver
command was issued. -/
def SDL_RumbleJoystick (maxDur resendMs : Nat) (driverResult : Int) (now : Nat)
    (s : RumbleState) (low_frequency_rumble high_frequency_rumble duration_ms : Nat) :
    RumbleState × Int × Bool :=
  if low_frequency_rumble = s.low_frequency_rumble ∧
     high_frequency_rumble = s.high_frequency_rumble then
    (rumbleRecordTimers maxDur now s low_frequency_rumble high_frequency_rumble duration_ms,
     0, false)
  else
    let s1 := { s with rumble_resend := (now + resendMs) % U64 }
    if driverResult = 0 then
      (rumbleRecordTimers maxDur now s1 low_frequency_rumble high_frequency_rumble duration_ms,
       0, true)
    else (s1, driverResult, true)

/-! ## LED state (`SDL_Joystick` LED fields) -/

structure LedState where
  led_red : Nat
  led_green : Nat
  led_blue : Nat
  led_expiration : Nat
deriving Repr, DecidableEq

/-- Shallow embedding of `SDL_SetJoystickLED` (SDL_joystick.c:1414-1443).

`minRepeatMs` is `SDL_LED_MIN_REPEAT_MS` (defined in a header outside `src/`);
`driverResult` is the value `joystick->driver->SetLED(...)` returns if called.
Returns the new state, the `int` return value, and whether the driver command
was issued. -/
def SDL_SetJoystickLED (minRepeatMs : Nat) (driverResult : Int) (now : Nat)
    (s : LedState) (red green blue : Nat) : LedState × Int × Bool :=
  if (red ≠ s.led_red ∨ green ≠ s.led_green ∨ blue ≠ s.led_blue) ∨ s.led_expiration ≤ now then
    ({ s with led_red := red, led_green := green, led_blue := blue,
              led_expiration := (now + minRepeatMs) % U64 }, driverResult, true)
  else
    ({ s with led_red := red, led_green := green, led_blue := blue }, 0, false)

/-! ## GuidCodec

An `SDL_JoystickGUID` is a 16-byte blob; we model it as a `List Nat` of
length 16 whose entries are bytes.  The C code aliases the byte array as a
`Uint16` array combined with `SDL_SwapLE16`, which fixes little-endian byte
order regardless of host endianness; we therefore pack and read 16-bit
fields little-endian directly. -/

/-- Little-endian byte pair of a 16-bit value (one `*guid16++ = SDL_SwapLE16(v)`). -/
def le16 (v : Nat) : List Nat := [v % 256, v / 256 % 256]

/-- `guid16[i]`: the `i`-th 16-bit little-endian field of a GUID byte list. -/
def guid16 (g : List Nat) (i : Nat) : Nat := g.getD (2 * i) 0 + 256 * g.getD (2 * i + 1) 0

/-- `SDL_HARDWARE_BUS_VIRTUAL` is defined in a header outside `src/`; the SDL
bus-type constants used by this file are `0x00`-`0x1f` plus virtual = `0xff`
(the decoder tests `bus < ' ' || bus == SDL_HARDWARE_BUS_VIRTUAL`). -/
def SDL_HARDWARE_BUS_VIRTUAL : Nat := 255

/-- The tail (bytes 4..15) of a GUID in the unknown-VID/PID form: the name is
copied by `SDL_strlcpy` into the zero-initialized blob with
`available_space = 12`, reduced to `10` when a driver signature is present
(bytes 14/15 then hold signature and data).  `SDL_strlcpy` writes at most
`available_space - 1` characters plus a terminating NUL, and the rest of the
zero-initialized buffer is untouched. -/
def guidNameTail (name : List Nat) (driver_signature driver_data : Nat) : List Nat :=
  if driver_signature % 256 ≠ 0 then
    (name.take 9).map (· % 256) ++ List.replicate (10 - min name.length 9) 0 ++
      [driver_signature % 256, driver_data % 256]
  else
    (name.take 11).map (· % 256) ++ List.replicate (12 - min name.length 11) 0

/-- Shallow embedding of `SDL_CreateJoystickGUID` (SDL_joystick.c:2261-2296).

`crc16` abstracts `SDL_crc16(0, name, SDL_strlen(name))`, whose implementation
lives outside `src/`; every theorem quantifies over it.  The name is a list of
non-NUL bytes (the C string's characters). -/
def SDL_CreateJoystickGUID (crc16 : List Nat → Nat) (bus vendor product version : Nat)
    (name : List Nat) (driver_signature driver_data : Nat) : List Nat :=
  le16 (bus % 65536) ++ le16 (crc16 name % 65536) ++
  (if vendor ≠ 0 ∧ product ≠ 0 then
    le16 (vendor % 65536) ++ le16 0 ++ le16 (product % 65536) ++ le16 0 ++
      le16 (version % 65536) ++ [driver_signature % 256, driver_data % 256]
  else
    guidNameTail name driver_signature driver_data)

/-- Shallow embedding of `SDL_GetJoystickGUIDInfo` (SDL_joystick.c:2044-2105).
Returns `(vendor, product, version, crc16)`. -/
def SDL_GetJoystickGUIDInfo (g : List Nat) : Nat × Nat × Nat × Nat :=
  let bus := guid16 g 0
  if (bus < 32 ∨ bus = SDL_HARDWARE_BUS_VIRTUAL) ∧ guid16 g 3 = 0 ∧ guid16 g 5 = 0 then
    (guid16 g 2, guid16 g 4, guid16 g 6, guid16 g 1)
  else if bus < 32 ∨ bus = SDL_HARDWARE_BUS_VIRTUAL then
    (0, 0, 0, guid16 g 1)
  else
    (0, 0, 0, 0)

/-! ## JoystickRegistry: open / close and the handle list

`SDL_joysticks` is a singly linked list of open handles; we model it as a
`List Handle` (head = most recently linked, as in the C code).  Only the
fields the lifecycle claims need are kept: the instance id, the reference
count and the attached flag.  `devices` models the union of all drivers'
currently enumerated device lists, which `SDL_GetDriverAndJoystickIndex`
scans; driver `Open` is assumed to succeed and allocation is not modelled. -/

structure Handle where
  instance_id : Nat
  ref_count : Nat
  attached : Bool
deriving Repr, DecidableEq

/-- The first list scan of `SDL_OpenJoystick`: does a handle for this
instance id already exist? -/
def containsId (l : List Handle) (id : Nat) : Bool :=
  l.any (fun j => j.instance_id == id)

/-- The already-open path of `SDL_OpenJoystick`: bump `ref_count` of the first
handle in the list whose instance id matches and return it unchanged
otherwise (the C loop returns at the first match). -/
def incRefFirst : List Handle → Nat → List Handle
  | [], _ => []
  | j :: rest, id =>
    if j.instance_id = id then { j with ref_count := j.ref_count + 1 } :: rest
    else j :: incRefFirst rest id

/-- Shallow embedding of `SDL_OpenJoystick` (SDL_joystick.c:723-839).

First `SDL_GetDriverAndJoystickIndex` resolves the id (requires `0 < id` and
the id to be enumerated by some driver); then the open-handle list is scanned
and an existing handle gets its `ref_count` bumped; otherwise a fresh handle
with `ref_count = 1` (`calloc` zero + the single `++joystick->ref_count`) is
linked at the head.  Returns the new list and whether the open succeeded. -/
def SDL_OpenJoystick (devices : List Nat) (l : List Handle) (id : Nat) :
    List Handle × Bool :=
  if 0 < id ∧ id ∈ devices then
    if containsId l id then (incRefFirst l id, true)
    else ({ instance_id := id, ref_count := 1, attached := true } :: l, true)
  else (l, false)

/-- Shallow embedding of `SDL_CloseJoystick` (SDL_joystick.c:1463-1536),
keyed by instance id (the C function takes the handle pointer; a pointer with
a stale magic fails `CHECK_JOYSTICK_MAGIC` and is a no-op, modelled by the
id not being in the list).  `--ref_count > 0` keeps the handle; otherwise it
is torn down and unlinked.  Returns the new list and whether a close
happened. -/
def SDL_CloseJoystick : List Handle → Nat → List Handle × Bool
  | [], _ => ([], false)
  | j :: rest, id =>
    if j.instance_id = id then
      if 1 < j.ref_count then ({ j with ref_count := j.ref_count - 1 } :: rest, true)
      else (rest, true)
    else
      let r := SDL_CloseJoystick rest id
      (j :: r.1, r.2)

/-- One user-visible lifecycle call. -/
inductive JoyOp where
  | jopen (id : Nat)
  | jclose (id : Nat)
deriving Repr, DecidableEq

/-- Registry state together with the per-id counters of successful opens and
closes (the counters are proof bookkeeping, not program state). -/
structure RunState where
  registry : List Handle
  opened : Nat → Nat
  closed : Nat → Nat

/-- Bump a per-id counter. -/
def bump (f : Nat → Nat) (id : Nat) : Nat → Nat :=
  fun x => if x = id then f x + 1 else f x

/-- Execute one lifecycle call against the registry. -/
def joyStep (devices : List Nat) (s : RunState) : JoyOp → RunState
  | .jopen id =>
    let r := SDL_OpenJoystick devices s.registry id
    { registry := r.1, opened := if r.2 then bump s.opened id else s.opened,
      closed := s.closed }
  | .jclose id =>
    let r := SDL_CloseJoystick s.registry id
    { registry := r.1, opened := s.opened,
      closed := if r.2 then bump s.closed id else s.closed }

/-- Run a sequence of lifecycle calls from the empty registry. -/
def joyRun (devices : List Nat) (ops : List JoyOp) : RunState :=
  ops.foldl (joyStep devices) { registry := [], opened := fun _ => 0, closed := fun _ => 0 }

/-- All handles currently registered for an instance id. -/
def handlesFor (l : List Handle) (id : Nat) : List Handle :=
  l.filter (fun j => j.instance_id == id)

/-- Total reference count registered for an instance id. -/
def refCountFor (l : List Handle) (id : Nat) : Nat :=
  ((handlesFor l id).map Handle.ref_count).sum

/-- The registry lifecycle invariant: every registered handle has a positive
reference count, at most one handle exists per instance id, and each id's
registered reference count equals its successful opens minus closes. -/
def RegInv (s : RunState) : Prop :=
  (∀ j ∈ s.registry, 0 < j.ref_count) ∧
  (∀ id, (handlesFor s.registry id).length ≤ 1) ∧
  (∀ id, refCountFor s.registry id + s.closed id = s.opened id)

/-! ## PlayerIndexTable

`SDL_joystick_players` is a heap array of `SDL_JoystickID` of length
`SDL_joystick_player_count`; we model it as a `List Nat` (slot value `0` =
empty).  Slot indices are C `int`s, so they are modelled as `Int`. -/

/-- Shallow embedding of `SDL_GetJoystickIDForPlayerIndex`
(SDL_joystick.c:251-259): `0` for an out-of-range slot. -/
def SDL_GetJoystickIDForPlayerIndex (tbl : List Nat) (player_index : Int) : Nat :=
  if player_index < 0 ∨ (tbl.length : Int) ≤ player_index then 0
  else tbl.getD player_index.toNat 0

/-- Shallow embedding of `SDL_FindFreePlayerIndex` (SDL_joystick.c:220-232):
index of the first empty slot, or the table length when the table is full
(`List.findIdx` returns the length when no entry matches, like the C loop). -/
def SDL_FindFreePlayerIndex (tbl : List Nat) : Nat :=
  tbl.findIdx (· == 0)

/-- Shallow embedding of `SDL_GetPlayerIndexForJoystickID`
(SDL_joystick.c:234-249): first slot holding the id, or `-1`. -/
def SDL_GetPlayerIndexForJoystickID (tbl : List Nat) (id : Nat) : Int :=
  let i := tbl.findIdx (· == id)
  if i = tbl.length then -1 else (i : Int)

/-- "Clear the old player index" (SDL_joystick.c:285-289): find the id's
previous slot via `SDL_GetPlayerIndexForJoystickID` and zero it if any. -/
def clearJoystickSlot (tbl : List Nat) (instance_id : Nat) : List Nat :=
  let i := tbl.findIdx (· == instance_id)
  if i < tbl.length then tbl.set i 0 else tbl

/-- The non-recursive body of `SDL_SetJoystickIDForPlayerIndex`: grow the
table (zero-filled) when the slot is beyond the current count, clear the
id's previous slot, and occupy the target slot when it is non-negative. -/
def assignPlayerSlot (tbl : List Nat) (player_index : Int) (instance_id : Nat) : List Nat :=
  let tbl1 := if (tbl.length : Int) ≤ player_index then
                tbl ++ List.replicate (player_index.toNat + 1 - tbl.length) 0
              else tbl
  let tbl2 := clearJoystickSlot tbl1 instance_id
  if 0 ≤ player_index then tbl2.set player_index.toNat instance_id else tbl2

/-- Shallow embedding of `SDL_SetJoystickIDForPlayerIndex`
(SDL_joystick.c:261-305), driven by explicit fuel for the recursive
relocation of a displaced prior occupant.  The recursion depth is at most 2:
the relocation targets `SDL_FindFreePlayerIndex`, a slot holding `0`, whose
`existing_instance` is therefore `0` (theorem `setID_fuel_independent`), so
fuel `2` gives exactly the C behaviour.  Steps, in C order:
`existing_instance` is read before growing; growing skips the "already
assigned this id" no-op check; then the assignment body runs and a displaced
non-zero prior occupant is relocated to the next free slot.  The driver
notification `SetDevicePlayerIndex` does not touch the table and is not
modelled. -/
def SDL_SetJoystickIDForPlayerIndex : Nat → List Nat → Int → Nat → List Nat
  | 0, tbl, _, _ => tbl
  | fuel + 1, tbl, player_index, instance_id =>
    let existing_instance := SDL_GetJoystickIDForPlayerIndex tbl player_index
    if ¬((tbl.length : Int) ≤ player_index) ∧ 0 ≤ player_index ∧
       tbl.getD player_index.toNat 0 = instance_id then
      tbl
    else
      let tbl3 := assignPlayerSlot tbl player_index instance_id
      if 0 < existing_instance then
        SDL_SetJoystickIDForPlayerIndex fuel tbl3 (SDL_FindFreePlayerIndex tbl3) existing_instance
      else tbl3

/-- Run a sequence of player-index assignments from the initial empty table. -/
def playerRun (ops : List (Int × Nat)) : List Nat :=
  ops.foldl (fun tbl op => SDL_SetJoystickIDForPlayerIndex 2 tbl op.1 op.2) []

/-- `id` occupies slot `i` of the table. -/
def occupies (tbl : List Nat) (i : Nat) (id : Nat) : Prop :=
  id ≠ 0 ∧ tbl.getD i 0 = id

/-- The player-index table invariant: each non-zero instance id occupies at
most one slot. -/
def PlayerInv (tbl : List Nat) : Prop := ∀ id, id ≠ 0 → tbl.count id ≤ 1

/-! ## EventFilterAndDebounce

Per-axis state (`SDL_JoystickAxisInfo`), per-button and per-hat state, and
the touchpad finger state, together with the internal state-change
entrypoints.  `ignore` models `SDL_PrivateJoystickShouldIgnoreEvent()`
(no keyboard focus and background events disallowed); timestamps are
`Uint64` nanosecond ticks modelled as `Nat`.  Posted events accumulate in a
list, with event delivery assumed enabled. -/

/-- `SDL_JoystickAxisInfo`: `Sint16` values are modelled as `Int`. -/
structure AxisInfo where
  value : Int
  zero : Int
  initial_value : Int
  has_initial_value : Bool
  has_second_value : Bool
  sent_initial_value : Bool
  sending_initial_value : Bool
deriving Repr, DecidableEq

/-- The all-zero axis state produced by `calloc` in `SDL_OpenJoystick`. -/
def AxisInfo.init : AxisInfo :=
  { value := 0, zero := 0, initial_value := 0, has_initial_value := false,
    has_second_value := false, sent_initial_value := false, sending_initial_value := false }

instance : Inhabited AxisInfo := ⟨AxisInfo.init⟩

/-- `SDL_JoystickTouchpadFingerInfo`: floats are modelled as rationals. -/
structure FingerInfo where
  state : Nat
  x : ℚ
  y : ℚ
  pressure : ℚ
deriving Repr, DecidableEq

/-- One touchpad (`SDL_JoystickTouchpadInfo`). -/
structure TouchpadInfo where
  fingers : List FingerInfo
deriving Repr, DecidableEq

/-- The per-device state the event entrypoints touch (`SDL_Joystick`). -/
structure Joystick where
  instance_id : Nat
  attached : Bool
  /-- `SDL_IsJoystickVIRTUAL(joystick->guid)`: byte 14 of the GUID is `'v'`. -/
  is_virtual : Bool
  axes : List AxisInfo
  buttons : List Nat
  hats : List Nat
  touchpads : List TouchpadInfo
  update_complete : Nat
deriving Repr, DecidableEq

/-- One posted SDL event (payload fields the claims mention). -/
inductive JoyEvent where
  | axisMotion (which : Nat) (axis : Nat) (value : Int)
  | hatMotion (which : Nat) (hat : Nat) (value : Nat)
  | buttonDown (which : Nat) (button : Nat)
  | buttonUp (which : Nat) (button : Nat)
  | touchpadDown (which : Nat) (touchpad finger : Nat) (x y pressure : ℚ)
  | touchpadUp (which : Nat) (touchpad finger : Nat) (x y pressure : ℚ)
  | touchpadMotion (which : Nat) (touchpad finger : Nat) (x y pressure : ℚ)
  | gamepadRemoved (which : Nat)
  | joystickRemoved (which : Nat)
deriving Repr, DecidableEq

def SDL_PRESSED : Nat := 1
def SDL_RELEASED : Nat := 0
def SDL_HAT_CENTERED : Nat := 0

/-- Store an updated axis record (`info` is a pointer into `joystick->axes`). -/
def Joystick.setAxis (j : Joystick) (axis : Nat) (info : AxisInfo) : Joystick :=
  { j with axes := j.axes.set axis info }

/-- Read the current axis record. -/
def Joystick.axisD (j : Joystick) (axis : Nat) : AxisInfo :=
  j.axes.getD axis AxisInfo.init

/-- Shallow embedding of `SDL_SendJoystickAxis` (SDL_joystick.c:1762-1829),
with fuel for the self-recursion that synthesizes the initial-value event.
The recursive call is made with `sent_initial_value` already true, so it
never recurses again and fuel `2` gives exactly the C behaviour
(`SDL_SendJoystickAxis_fuel`).  Mutations made through the `info` pointer
before an early `return 0` persist, so each early exit returns the state
updated so far.  Control flow, in C order: out-of-range index is a silent
no-op; a first real signal (or a saturated reading snapping back inside a
quarter of full range) re-establishes `initial_value = zero = value`; an
unchanged value is dropped unless the initial event is being synthesized;
otherwise `has_second_value` is set.  Until the initial value has been sent,
deltas within `SDL_JOYSTICK_AXIS_MAX / 80` are swallowed except for virtual
devices, and the first real send first re-invokes the function with the
initial value.  Without focus, only movement toward `zero` passes.  -/
def sendAxisFuel : Nat → Bool → Nat → Joystick → Nat → Int → Joystick × List JoyEvent
  | 0, _, _, j, _, _ => (j, [])
  | fuel + 1, ignore, timestamp, j, axis, value =>
    if haxis : axis < j.axes.length then
      let info0 := j.axes.get ⟨axis, haxis⟩
      let reinit := ¬info0.has_initial_value ∨
          (¬info0.has_second_value ∧
           (info0.initial_value ≤ -32767 ∨ info0.initial_value = 32767) ∧
           |value| < SDL_JOYSTICK_AXIS_MAX / 4)
      if ¬reinit ∧ value = info0.value ∧ ¬info0.sending_initial_value then
        (j, [])
      else
        let info1 := if reinit then
            { info0 with initial_value := value, value := value, zero := value,
                         has_initial_value := true }
          else { info0 with has_second_value := true }
        let j1 := j.setAxis axis info1
        if ¬info1.sent_initial_value ∧ |value - info1.value| ≤ SDL_JOYSTICK_AXIS_MAX / 80 ∧
           ¬j1.is_virtual then
          (j1, [])
        else
          let step :=
            if ¬info1.sent_initial_value then
              let j1a := j1.setAxis axis
                { info1 with sent_initial_value := true, sending_initial_value := true }
              let r := sendAxisFuel fuel ignore timestamp j1a axis info1.initial_value
              (r.1.setAxis axis { r.1.axisD axis with sending_initial_value := false }, r.2)
            else (j1, ([] : List JoyEvent))
          let j2 := step.1
          let info2 := j2.axisD axis
          if ignore ∧ (info2.sending_initial_value ∨
                       (info2.zero < value ∧ info2.value ≤ value) ∨
                       (value < info2.zero ∧ value ≤ info2.value)) then
            (j2, step.2)
          else
            ({ j2.setAxis axis { info2 with value := value } with update_complete := timestamp },
             step.2 ++ [JoyEvent.axisMotion j2.instance_id axis value])
    else (j, [])

/-- `SDL_SendJoystickAxis` with enough fuel for its bounded self-recursion. -/
def SDL_SendJoystickAxis (ignore : Bool) (timestamp : Nat) (j : Joystick)
    (axis : Nat) (value : Int) : Joystick × List JoyEvent :=
  sendAxisFuel 2 ignore timestamp j axis value

/-- Shallow embedding of `SDL_SendJoystickHat` (SDL_joystick.c:1831-1873). -/
def SDL_SendJoystickHat (ignore : Bool) (timestamp : Nat) (j : Joystick)
    (hat : Nat) (value : Nat) : Joystick × List JoyEvent :=
  if hh : hat < j.hats.length then
    if value = j.hats.get ⟨hat, hh⟩ then (j, [])
    else if ignore ∧ value ≠ SDL_HAT_CENTERED then (j, [])
    else ({ j with hats := j.hats.set hat value, update_complete := timestamp },
          [JoyEvent.hatMotion j.instance_id hat value])
  else (j, [])

/-- Shallow embedding of `SDL_SendJoystickButton` (SDL_joystick.c:1875-1931).
The event-type switch bails on a state other than pressed/released; then
out-of-range and duplicate states are dropped, and without focus only
releases pass. -/
def SDL_SendJoystickButton (ignore : Bool) (timestamp : Nat) (j : Joystick)
    (button : Nat) (state : Nat) : Joystick × List JoyEvent :=
  if state ≠ SDL_PRESSED ∧ state ≠ SDL_RELEASED then (j, [])
  else if hb : button < j.buttons.length then
    if state = j.buttons.get ⟨button, hb⟩ then (j, [])
    else if ignore ∧ state = SDL_PRESSED then (j, [])
    else ({ j with buttons := j.buttons.set button state, update_complete := timestamp },
          [if state = SDL_PRESSED then JoyEvent.buttonDown j.instance_id button
           else JoyEvent.buttonUp j.instance_id button])
  else (j, [])

/-- Clamp to `[0, 1]` as the C code does for touchpad coordinates. -/
def clamp01 (v : ℚ) : ℚ := if v < 0 then 0 else if 1 < v then 1 else v

/-- Shallow embedding of `SDL_SendJoystickTouchpad` (SDL_joystick.c:3259-3350).
Touchpad and finger indices are C `int`s.  A release without explicit
coordinates keeps the last position, and release forces pressure `0`;
coordinates are clamped to `[0, 1]`; no-op repeats are dropped; the event is
classified down/up/motion from the previous `state`; without focus only
"up" passes. -/
def SDL_SendJoystickTouchpad (ignore : Bool) (timestamp : Nat) (j : Joystick)
    (touchpad finger : Int) (state : Nat) (x y pressure : ℚ) :
    Joystick × List JoyEvent :=
  if 0 ≤ touchpad ∧ touchpad < (j.touchpads.length : Int) then
    let tp := j.touchpads.getD touchpad.toNat ⟨[]⟩
    if 0 ≤ finger ∧ finger < (tp.fingers.length : Int) then
      let fi := tp.fingers.getD finger.toNat ⟨0, 0, 0, 0⟩
      let x1 := if state = 0 ∧ x = 0 ∧ y = 0 then fi.x else x
      let y1 := if state = 0 ∧ x = 0 ∧ y = 0 then fi.y else y
      let p1 := if state = 0 then 0 else pressure
      let x2 := clamp01 x1
      let y2 := clamp01 y1
      let p2 := clamp01 p1
      if state = fi.state ∧ (state = 0 ∨ (x2 = fi.x ∧ y2 = fi.y ∧ p2 = fi.pressure)) then
        (j, [])
      else
        let etype : Nat := if state = fi.state then 2 else if state ≠ 0 then 1 else 0
        if ignore ∧ etype ≠ 0 then (j, [])
        else
          let fi' : FingerInfo := { state := state, x := x2, y := y2, pressure := p2 }
          let tp' : TouchpadInfo := { fingers := tp.fingers.set finger.toNat fi' }
          ({ j with touchpads := j.touchpads.set touchpad.toNat tp',
                    update_complete := timestamp },
           [if etype = 2 then JoyEvent.touchpadMotion j.instance_id touchpad.toNat finger.toNat x2 y2 p2
            else if etype = 1 then JoyEvent.touchpadDown j.instance_id touchpad.toNat finger.toNat x2 y2 p2
            else JoyEvent.touchpadUp j.instance_id touchpad.toNat finger.toNat x2 y2 p2])
    else (j, [])
  else (j, [])

/-- Fold a state-and-events step over a list of indices. -/
def foldEvents (f : Joystick × List JoyEvent → Nat → Joystick × List JoyEvent)
    (init : Joystick × List JoyEvent) (idxs : List Nat) : Joystick × List JoyEvent :=
  idxs.foldl f init

/-- Shallow embedding of `SDL_PrivateJoystickForceRecentering`
(SDL_joystick.c:1689-1718): synthesize centered/released transitions for
every axis with a known initial value, every button, every hat, and every
touchpad finger, in that order. -/
def SDL_PrivateJoystickForceRecentering (ignore : Bool) (timestamp : Nat)
    (j : Joystick) : Joystick × List JoyEvent :=
  let s1 := foldEvents
    (fun acc i =>
      let info := acc.1.axisD i
      if info.has_initial_value then
        let r := sendAxisFuel 2 ignore timestamp acc.1 i info.zero
        (r.1, acc.2 ++ r.2)
      else acc)
    (j, []) (List.range j.axes.length)
  let s2 := foldEvents
    (fun acc i =>
      let r := SDL_SendJoystickButton ignore timestamp acc.1 i SDL_RELEASED
      (r.1, acc.2 ++ r.2))
    s1 (List.range j.buttons.length)
  let s3 := foldEvents
    (fun acc i =>
      let r := SDL_SendJoystickHat ignore timestamp acc.1 i SDL_HAT_CENTERED
      (r.1, acc.2 ++ r.2))
    s2 (List.range j.hats.length)
  (List.range j.touchpads.length).foldl
    (fun acc (i : Nat) =>
      foldEvents
        (fun acc2 k =>
          let r := SDL_SendJoystickTouchpad ignore timestamp acc2.1 (i : Int) (k : Int)
                     SDL_RELEASED 0 0 0
          (r.1, acc2.2 ++ r.2))
        acc (List.range ((acc.1.touchpads.getD i ⟨[]⟩).fingers.length)))
    s3

/-- The list walk of `SDL_PrivateJoystickRemoved`: recenter the first live
handle with this instance id and mark it detached (the handle is not
removed from the list). -/
def recenterFirst (ignore : Bool) (timestamp : Nat) :
    List Joystick → Nat → List Joystick × List JoyEvent
  | [], _ => ([], [])
  | j :: rest, id =>
    if j.instance_id = id then
      let r := SDL_PrivateJoystickForceRecentering ignore timestamp j
      ({ r.1 with attached := false } :: rest, r.2)
    else
      let r := recenterFirst ignore timestamp rest id
      (j :: r.1, r.2)

/-- Shallow embedding of `SDL_PrivateJoystickRemoved` (SDL_joystick.c:1720-1760):
recenter and detach the live handle (if still open), notify the gamepad
layer unconditionally, push the removed event, then clear the player-index
slot.  Returns the handle list, the player table and the posted events. -/
def SDL_PrivateJoystickRemoved (ignore : Bool) (timestamp : Nat)
    (joysticks : List Joystick) (players : List Nat) (instance_id : Nat) :
    List Joystick × List Nat × List JoyEvent :=
  let r := recenterFirst ignore timestamp joysticks instance_id
  let evs := r.2 ++ [JoyEvent.gamepadRemoved instance_id,
                     JoyEvent.joystickRemoved instance_id]
  let player_index := SDL_GetPlayerIndexForJoystickID players instance_id
  let players' := if 0 ≤ player_index then players.set player_index.toNat 0 else players
  (r.1, players', evs)

/-! ## Direct public state queries

`SDL_GetJoystickAxis` / `Hat` / `Button` take a C `int` index and guard the
array read with `index < count` only.  The raw C array read is modelled with
the surrounding memory made explicit: positions `0 ≤ i < count` hold the real
elements and any other position yields an unspecified junk value, which is
what an out-of-bounds read returns.  Each query returns the value, whether
the error branch was taken, and the position the backing array was indexed
at (`none` when no access happened). -/

/-- The raw read `arr[i]` with out-of-bounds positions exposed. -/
def arrayRead (arr : List Int) (junk : Int → Int) (i : Int) : Int :=
  if 0 ≤ i ∧ i < (arr.length : Int) then arr.getD i.toNat 0 else junk i

/-- Shallow embedding of `SDL_GetJoystickAxis` (SDL_joystick.c:1041-1059). -/
def SDL_GetJoystickAxis (junk : Int → Int) (j : Joystick) (axis : Int) :
    Int × Bool × Option Int :=
  if axis < (j.axes.length : Int) then
    (arrayRead (j.axes.map AxisInfo.value) junk axis, false, some axis)
  else (0, true, none)

/-- Shallow embedding of `SDL_GetJoystickHat` (SDL_joystick.c:1090-1108). -/
def SDL_GetJoystickHat (junk : Int → Int) (j : Joystick) (hat : Int) :
    Int × Bool × Option Int :=
  if hat < (j.hats.length : Int) then
    (arrayRead (j.hats.map (Int.ofNat)) junk hat, false, some hat)
  else (0, true, none)

/-- Shallow embedding of `SDL_GetJoystickButton` (SDL_joystick.c:1113-1131). -/
def SDL_GetJoystickButton (junk : Int → Int) (j : Joystick) (button : Int) :
    Int × Bool × Option Int :=
  if button < (j.buttons.length : Int) then
    (arrayRead (j.buttons.map (Int.ofNat)) junk button, false, some button)
  else (0, true, none)

/-! ## Concrete scenarios used by the temporal / functional claims -/

/-- An axis that has been live: initial value and zero recorded at 100,
currently deflected to 5000. -/
def c3Axis : AxisInfo :=
  { value := 5000, zero := 100, initial_value := 100, has_initial_value := true,
    has_second_value := true, sent_initial_value := true, sending_initial_value := false }

/-- An attached device with two pressed buttons and one non-centered axis,
assigned player slot 0. -/
def c3Joy : Joystick :=
  { instance_id := 7, attached := true, is_virtual := false,
    axes := [c3Axis], buttons := [1, 1], hats := [], touchpads := [],
    update_complete := 0 }

/-- A non-virtual device with one axis in its freshly-opened (all-zero)
state: no initial value yet. -/
def c4Joy : Joystick :=
  { instance_id := 3, attached := true, is_virtual := false,
    axes := [AxisInfo.init], buttons := [], hats := [], touchpads := [],
    update_complete := 0 }

/-- A device with exactly one axis, one hat and one button, for the query
bounds-check claims. -/
def c9Joy : Joystick :=
  { instance_id := 5, attached := true, is_virtual := false,
    axes := [{ AxisInfo.init with value := 11 }], buttons := [1], hats := [2],
    touchpads := [], update_complete := 0 }

/-! # Theorems

The claims C1..C10 of the specification, settled against the embedding
above.  Shared helper lemmas come first. -/

theorem handlesFor_cons (j : Handle) (l : List Handle) (id : Nat) :
    handlesFor (j :: l) id =
      if j.instance_id = id then j :: handlesFor l id else handlesFor l id := by
  by_cases h : j.instance_id = id <;> simp [handlesFor, List.filter_cons, h]

theorem refCountFor_cons (j : Handle) (l : List Handle) (id : Nat) :
    refCountFor (j :: l) id =
      (if j.instance_id = id then j.ref_count else 0) + refCountFor l id := by
  simp only [refCountFor, handlesFor_cons]
  split <;> simp

theorem containsId_cons (j : Handle) (l : List Handle) (id : Nat) :
    containsId (j :: l) id = ((j.instance_id == id) || containsId l id) := by
  simp [containsId]

theorem handlesFor_eq_nil_of_not_containsId (l : List Handle) (id : Nat)
    (h : containsId l id = false) : handlesFor l id = [] := by
  induction l with
  | nil => rfl
  | cons j rest ih =>
    rw [containsId_cons] at h
    simp only [Bool.or_eq_false_iff, beq_eq_false_iff_ne, ne_eq] at h
    rw [handlesFor_cons, if_neg h.1, ih h.2]

theorem incRefFirst_length (l : List Handle) (id : Nat) :
    (incRefFirst l id).length = l.length := by
  induction l with
  | nil => rfl
  | cons j rest ih => simp only [incRefFirst]; split <;> simp [ih]

theorem handlesFor_incRefFirst_length (l : List Handle) (id id' : Nat) :
    (handlesFor (incRefFirst l id) id').length = (handlesFor l id').length := by
  induction l with
  | nil => rfl
  | cons j rest ih =>
    simp only [incRefFirst]
    split <;> rename_i hj <;> rw [handlesFor_cons, handlesFor_cons]
    · by_cases hj' : j.instance_id = id'
      · rw [if_pos hj', if_pos hj']
        simp
      · rw [if_neg hj', if_neg hj']
    · by_cases hj' : j.instance_id = id'
      · rw [if_pos hj', if_pos hj']
        simp [ih]
      · rw [if_neg hj', if_neg hj', ih]

theorem handlesFor_incRefFirst_ne (l : List Handle) (id id' : Nat) (hne : id' ≠ id) :
    handlesFor (incRefFirst l id) id' = handlesFor l id' := by
  induction l with
  | nil => rfl
  | cons j rest ih =>
    simp only [incRefFirst]
    split <;> rename_i hj <;> rw [handlesFor_cons, handlesFor_cons]
    · have hid' : j.instance_id ≠ id' := by rw [hj]; exact fun h => hne h.symm
      rw [if_neg hid', if_neg hid']
    · by_cases hj' : j.instance_id = id'
      · rw [if_pos hj', if_pos hj', ih]
      · rw [if_neg hj', if_neg hj', ih]

theorem refCountFor_incRefFirst_self (l : List Handle) (id : Nat)
    (hc : containsId l id = true) :
    refCountFor (incRefFirst l id) id = refCountFor l id + 1 := by
  induction l with
  | nil => simp [containsId] at hc
  | cons j rest ih =>
    rw [containsId_cons] at hc
    simp only [incRefFirst]
    split <;> rename_i hj
    · rw [refCountFor_cons, refCountFor_cons, if_pos hj, if_pos hj]
      show j.ref_count + 1 + refCountFor rest id = j.ref_count + refCountFor rest id + 1
      omega
    · rw [refCountFor_cons, refCountFor_cons, if_neg hj]
      have hrest : containsId rest id = true := by
        simp only [Bool.or_eq_true, beq_iff_eq] at hc
        tauto
      have := ih hrest
      omega

theorem incRefFirst_pos (l : List Handle) (id : Nat)
    (h : ∀ j ∈ l, 0 < j.ref_count) : ∀ j ∈ incRefFirst l id, 0 < j.ref_count := by
  induction l with
  | nil => simp [incRefFirst]
  | cons j rest ih =>
    have hj0 := h j (by simp)
    have hrest : ∀ x ∈ rest, 0 < x.ref_count := fun x hx => h x (by simp [hx])
    simp only [incRefFirst]
    split <;> intro k hk <;> simp only [List.mem_cons] at hk <;> rcases hk with hk | hk
    · subst hk
      show 0 < j.ref_count + 1
      omega
    · exact hrest k hk
    · subst hk; exact hj0
    · exact ih hrest k hk

theorem close_not_contains (l : List Handle) (id : Nat)
    (h : containsId l id = false) : SDL_CloseJoystick l id = (l, false) := by
  induction l with
  | nil => rfl
  | cons j rest ih =>
    rw [containsId_cons] at h
    simp only [Bool.or_eq_false_iff, beq_eq_false_iff_ne, ne_eq] at h
    simp only [SDL_CloseJoystick, if_neg h.1, ih h.2]

theorem close_snd_contains (l : List Handle) (id : Nat)
    (h : containsId l id = true) : (SDL_CloseJoystick l id).2 = true := by
  induction l with
  | nil => simp [containsId] at h
  | cons j rest ih =>
    rw [containsId_cons] at h
    simp only [SDL_CloseJoystick]
    split <;> rename_i hj
    · split <;> rfl
    · simp only [Bool.or_eq_true, beq_iff_eq] at h
      exact ih (by tauto)

theorem refCountFor_close_self (l : List Handle) (id : Nat)
    (hc : containsId l id = true) (hpos : ∀ j ∈ l, 0 < j.ref_count) :
    refCountFor (SDL_CloseJoystick l id).1 id + 1 = refCountFor l id := by
  induction l with
  | nil => simp [containsId] at hc
  | cons j rest ih =>
    rw [containsId_cons] at hc
    simp only [SDL_CloseJoystick]
    split <;> rename_i hj
    · split <;> rename_i href
      · rw [refCountFor_cons, refCountFor_cons, if_pos hj, if_pos hj]
        show j.ref_count - 1 + refCountFor rest id + 1 = j.ref_count + refCountFor rest id
        omega
      · have h1 : j.ref_count = 1 := by
          have := hpos j (by simp)
          omega
        show refCountFor rest id + 1 = refCountFor (j :: rest) id
        rw [refCountFor_cons, if_pos hj, h1]
        omega
    · show refCountFor (j :: (SDL_CloseJoystick rest id).1) id + 1
        = refCountFor (j :: rest) id
      rw [refCountFor_cons, refCountFor_cons, if_neg hj]
      have hrest : containsId rest id = true := by
        simp only [Bool.or_eq_true, beq_iff_eq] at hc
        tauto
      have := ih hrest (fun x hx => hpos x (by simp [hx]))
      omega

theorem handlesFor_close_ne (l : List Handle) (id id' : Nat) (hne : id' ≠ id) :
    handlesFor (SDL_CloseJoystick l id).1 id' = handlesFor l id' := by
  induction l with
  | nil => rfl
  | cons j rest ih =>
    simp only [SDL_CloseJoystick]
    split <;> rename_i hj
    · have hid' : j.instance_id ≠ id' := by rw [hj]; exact fun h => hne h.symm
      split
      · rw [handlesFor_cons, handlesFor_cons, if_neg hid', if_neg hid']
      · show handlesFor rest id' = handlesFor (j :: rest) id'
        rw [handlesFor_cons, if_neg hid']
    · show handlesFor (j :: (SDL_CloseJoystick rest id).1) id' = handlesFor (j :: rest) id'
      rw [handlesFor_cons, handlesFor_cons, ih]

theorem handlesFor_close_len (l : List Handle) (id : Nat) :
    (handlesFor (SDL_CloseJoystick l id).1 id).length ≤ (handlesFor l id).length := by
  induction l with
  | nil => simp [SDL_CloseJoystick]
  | cons j rest ih =>
    simp only [SDL_CloseJoystick]
    split <;> rename_i hj
    · split
      · rw [handlesFor_cons, handlesFor_cons, if_pos hj, if_pos hj]
        simp
      · show (handlesFor rest id).length ≤ (handlesFor (j :: rest) id).length
        rw [handlesFor_cons, if_pos hj]
        simp only [List.length_cons]
        omega
    · show (handlesFor (j :: (SDL_CloseJoystick rest id).1) id).length
        ≤ (handlesFor (j :: rest) id).length
      rw [handlesFor_cons, handlesFor_cons]
      by_cases hj' : j.instance_id = id
      · rw [if_pos hj', if_pos hj']
        simpa using ih
      · rw [if_neg hj', if_neg hj']
        exact ih

theorem close_pos (l : List Handle) (id : Nat)
    (h : ∀ j ∈ l, 0 < j.ref_count) : ∀ j ∈ (SDL_CloseJoystick l id).1, 0 < j.ref_count := by
  induction l with
  | nil => simp [SDL_CloseJoystick]
  | cons j rest ih =>
    have hj0 := h j (by simp)
    have hrest : ∀ x ∈ rest, 0 < x.ref_count := fun x hx => h x (by simp [hx])
    simp only [SDL_CloseJoystick]
    split <;> rename_i hj
    · split <;> rename_i href <;> intro k hk
      · simp only [List.mem_cons] at hk
        rcases hk with hk | hk
        · subst hk
          show 0 < j.ref_count - 1
          omega
        · exact hrest k hk
      · exact hrest k hk
    · intro k hk
      simp only [List.mem_cons] at hk
      rcases hk with hk | hk
      · subst hk; exact hj0
      · exact ih hrest k hk

theorem joyStep_inv (devices : List Nat) (s : RunState) (op : JoyOp)
    (h : RegInv s) : RegInv (joyStep devices s op) := by
  obtain ⟨hpos, hlen, hcount⟩ := h
  cases op with
  | jopen id =>
    by_cases hdev : 0 < id ∧ id ∈ devices
    · by_cases hc : containsId s.registry id = true
      · have hopen : SDL_OpenJoystick devices s.registry id
            = (incRefFirst s.registry id, true) := by
          unfold SDL_OpenJoystick
          rw [if_pos hdev, if_pos hc]
        simp only [joyStep, hopen, if_true]
        refine ⟨incRefFirst_pos _ _ hpos, ?_, ?_⟩
        · intro id'
          rw [handlesFor_incRefFirst_length]
          exact hlen id'
        · intro id'
          by_cases hid : id' = id
          · subst hid
            rw [refCountFor_incRefFirst_self _ _ hc]
            simp only [bump, if_pos rfl, if_true, eq_self_iff_true]
            have := hcount id'
            omega
          · have heq : refCountFor (incRefFirst s.registry id) id'
                = refCountFor s.registry id' := by
              unfold refCountFor
              rw [handlesFor_incRefFirst_ne _ _ _ hid]
            rw [heq]
            simp only [bump, if_neg hid]
            exact hcount id'
      · have hopen : SDL_OpenJoystick devices s.registry id
            = ({ instance_id := id, ref_count := 1, attached := true } :: s.registry, true) := by
          unfold SDL_OpenJoystick
          rw [if_pos hdev, if_neg hc]
        simp only [joyStep, hopen, if_true]
        have hnil : handlesFor s.registry id = [] :=
          handlesFor_eq_nil_of_not_containsId _ _ (by simpa using hc)
        refine ⟨?_, ?_, ?_⟩
        · intro k hk
          simp only [List.mem_cons] at hk
          rcases hk with hk | hk
          · subst hk
            show 0 < 1
            omega
          · exact hpos k hk
        · intro id'
          rw [handlesFor_cons]
          by_cases hid : id' = id
          · subst hid
            rw [if_pos rfl, hnil]
            simp
          · rw [if_neg (fun hh => hid hh.symm)]
            exact hlen id'
        · intro id'
          rw [refCountFor_cons]
          by_cases hid : id' = id
          · subst hid
            rw [if_pos rfl]
            have h0 : refCountFor s.registry id' = 0 := by
              unfold refCountFor
              rw [hnil]
              rfl
            have := hcount id'
            simp only [bump, if_pos rfl, if_true, eq_self_iff_true]
            omega
          · rw [if_neg (fun hh => hid hh.symm)]
            simp only [bump, if_neg hid]
            have := hcount id'
            omega
    · have hopen : SDL_OpenJoystick devices s.registry id = (s.registry, false) := by
        unfold SDL_OpenJoystick
        rw [if_neg hdev]
      simp only [joyStep, hopen, if_false, Bool.false_eq_true]
      exact ⟨hpos, hlen, hcount⟩
  | jclose id =>
    by_cases hc : containsId s.registry id = true
    · have hsnd := close_snd_contains s.registry id hc
      simp only [joyStep, hsnd, if_true]
      refine ⟨close_pos _ _ hpos, ?_, ?_⟩
      · intro id'
        by_cases hid : id' = id
        · subst hid
          exact le_trans (handlesFor_close_len _ _) (hlen id')
        · unfold refCountFor at *
          rw [handlesFor_close_ne _ _ _ hid]
          exact hlen id'
      · intro id'
        by_cases hid : id' = id
        · subst hid
          have h1 := refCountFor_close_self s.registry id' hc hpos
          have h2 := hcount id'
          simp only [bump, if_pos rfl, if_true, eq_self_iff_true]
          omega
        · have heq : refCountFor (SDL_CloseJoystick s.registry id).1 id'
              = refCountFor s.registry id' := by
            unfold refCountFor
            rw [handlesFor_close_ne _ _ _ hid]
          rw [heq]
          simp only [bump, if_neg hid]
          exact hcount id'
    · have hns := close_not_contains s.registry id (by simpa using hc)
      simp only [joyStep, hns, if_false, Bool.false_eq_true]
      exact ⟨hpos, hlen, hcount⟩

theorem joyRun_inv (devices : List Nat) (ops : List JoyOp) :
    RegInv (joyRun devices ops) := by
  have hgen : ∀ s, RegInv s → RegInv (ops.foldl (joyStep devices) s) := by
    induction ops with
    | nil => intro s hs; exact hs
    | cons op rest ih => intro s hs; exact ih _ (joyStep_inv devices s op hs)
  refine hgen _ ⟨?_, ?_, ?_⟩
  · intro j hj; simp at hj
  · intro id; simp [handlesFor]
  · intro id; simp [refCountFor, handlesFor]

/-- C1: at most one handle exists per instance id after any sequence of open
and close calls; each id's registered reference count equals its successful
opens minus its closes; and an open call for an id with a registered handle
(and a resolvable device) bumps that handle's reference count in place — it
creates no new handle. -/
theorem c1_at_most_one_handle (devices : List Nat) (ops : List JoyOp) (id : Nat) :
    ((handlesFor (joyRun devices ops).registry id).length ≤ 1 ∧
     refCountFor (joyRun devices ops).registry id + (joyRun devices ops).closed id
       = (joyRun devices ops).opened id) ∧
    (∀ l : List Handle, 0 < id → id ∈ devices → containsId l id = true →
      SDL_OpenJoystick devices l id = (incRefFirst l id, true) ∧
      (incRefFirst l id).length = l.length ∧
      refCountFor (incRefFirst l id) id = refCountFor l id + 1) := by
  obtain ⟨hpos, hlen, hcount⟩ := joyRun_inv devices ops
  refine ⟨⟨hlen id, hcount id⟩, ?_⟩
  intro l hid hdev hc
  refine ⟨?_, incRefFirst_length l id, refCountFor_incRefFirst_self l id hc⟩
  unfold SDL_OpenJoystick
  rw [if_pos ⟨hid, hdev⟩, if_pos hc]

/-- Witness for `c1_at_most_one_handle`: device 1, opened twice then closed
once, and the in-place bump on a concrete one-handle registry. -/
theorem c1_at_most_one_handle_witness :
    ((handlesFor (joyRun [1] [JoyOp.jopen 1, JoyOp.jopen 1, JoyOp.jclose 1]).registry 1).length
        ≤ 1 ∧
     refCountFor (joyRun [1] [JoyOp.jopen 1, JoyOp.jopen 1, JoyOp.jclose 1]).registry 1 +
         (joyRun [1] [JoyOp.jopen 1, JoyOp.jopen 1, JoyOp.jclose 1]).closed 1
       = (joyRun [1] [JoyOp.jopen 1, JoyOp.jopen 1, JoyOp.jclose 1]).opened 1) ∧
    (SDL_OpenJoystick [1] [⟨1, 1, true⟩] 1 = (incRefFirst [⟨1, 1, true⟩] 1, true) ∧
     (incRefFirst [⟨1, 1, true⟩] 1).length = ([⟨1, 1, true⟩] : List Handle).length ∧
     refCountFor (incRefFirst [⟨1, 1, true⟩] 1) 1 = refCountFor [⟨1, 1, true⟩] 1 + 1) := by
  have h := c1_at_most_one_handle [1] [JoyOp.jopen 1, JoyOp.jopen 1, JoyOp.jclose 1] 1
  exact ⟨h.1, h.2 [⟨1, 1, true⟩] (by decide) (by decide) (by decide)⟩

theorem count_set_le (l : List Nat) (i v x : Nat) (hx : x ≠ v) :
    (l.set i v).count x ≤ l.count x := by
  induction l generalizing i with
  | nil => simp
  | cons a t ih =>
    cases i with
    | zero =>
      simp only [List.set_cons_zero, List.count_cons, beq_iff_eq, hx, if_false]
      split <;> omega
    | succ i =>
      simp only [List.set_cons_succ, List.count_cons]
      have := ih i
      split <;> omega

theorem count_set_self_le (l : List Nat) (i v : Nat) :
    (l.set i v).count v ≤ l.count v + 1 := by
  induction l generalizing i with
  | nil => simp
  | cons a t ih =>
    cases i with
    | zero =>
      simp only [List.set_cons_zero, List.count_cons, beq_iff_eq]
      split <;> simp <;> omega
    | succ i =>
      simp only [List.set_cons_succ, List.count_cons]
      have := ih i
      split <;> omega

theorem clearJoystickSlot_nil (id : Nat) : clearJoystickSlot [] id = [] := rfl

theorem clearJoystickSlot_cons (a : Nat) (l : List Nat) (id : Nat) :
    clearJoystickSlot (a :: l) id =
      if a = id then 0 :: l else a :: clearJoystickSlot l id := by
  unfold clearJoystickSlot
  rw [List.findIdx_cons]
  by_cases ha : a = id
  · simp [ha]
  · have hb : (a == id) = false := by simp [ha]
    simp only [hb, cond_false, if_neg ha, List.length_cons]
    by_cases hlt : l.findIdx (· == id) < l.length
    · rw [if_pos (by omega), if_pos hlt, List.set_cons_succ]
    · rw [if_neg (by omega), if_neg hlt]

theorem count_clearJoystickSlot_le (l : List Nat) (id x : Nat) (hx : x ≠ 0) :
    (clearJoystickSlot l id).count x ≤ l.count x := by
  induction l with
  | nil => rw [clearJoystickSlot_nil]
  | cons a t ih =>
    rw [clearJoystickSlot_cons]
    by_cases ha : a = id
    · rw [if_pos ha]
      simp only [List.count_cons, beq_iff_eq, hx, if_false]
      split <;> omega
    · rw [if_neg ha]
      simp only [List.count_cons]
      split <;> omega

theorem count_clearJoystickSlot_self (l : List Nat) (id : Nat) (hid : id ≠ 0)
    (h : l.count id ≤ 1) : (clearJoystickSlot l id).count id = 0 := by
  induction l with
  | nil => rw [clearJoystickSlot_nil]; rfl
  | cons a t ih =>
    rw [clearJoystickSlot_cons]
    by_cases ha : a = id
    · rw [if_pos ha]
      have ht : t.count id = 0 := by
        rw [List.count_cons] at h
        simp only [ha, beq_self_eq_true, if_true] at h
        omega
      rw [List.count_cons]
      simp only [beq_iff_eq]
      rw [if_neg (fun hh => hid hh.symm)]
      omega
    · rw [if_neg ha]
      have ht : t.count id ≤ 1 := by
        rw [List.count_cons] at h
        omega
      have hih := ih ht
      rw [List.count_cons]
      simp only [beq_iff_eq]
      rw [if_neg ha]
      omega

theorem count_append_zeros (l : List Nat) (n x : Nat) (hx : x ≠ 0) :
    (l ++ List.replicate n 0).count x = l.count x := by
  rw [List.count_append, List.count_replicate]
  simp only [beq_iff_eq]
  rw [if_neg (fun hh => hx hh.symm)]
  omega

theorem assignPlayerSlot_inv (tbl : List Nat) (pi : Int) (id : Nat)
    (h : PlayerInv tbl) : PlayerInv (assignPlayerSlot tbl pi id) := by
  unfold assignPlayerSlot
  set tbl1 := if (tbl.length : Int) ≤ pi then
      tbl ++ List.replicate (pi.toNat + 1 - tbl.length) 0
    else tbl with htbl1
  have h1 : PlayerInv tbl1 := by
    intro y hy
    rw [htbl1]
    split
    · rw [count_append_zeros _ _ _ hy]
      exact h y hy
    · exact h y hy
  intro x hx
  by_cases hpi : (0 : Int) ≤ pi
  · rw [if_pos hpi]
    by_cases hxid : x = id
    · subst hxid
      have hc : (clearJoystickSlot tbl1 x).count x = 0 :=
        count_clearJoystickSlot_self tbl1 x hx (h1 x hx)
      have := count_set_self_le (clearJoystickSlot tbl1 x) pi.toNat x
      omega
    · have hs := count_set_le (clearJoystickSlot tbl1 id) pi.toNat id x hxid
      have hcl := count_clearJoystickSlot_le tbl1 id x hx
      have := h1 x hx
      omega
  · rw [if_neg hpi]
    have hcl := count_clearJoystickSlot_le tbl1 id x hx
    have := h1 x hx
    omega

theorem setID_inv (fuel : Nat) :
    ∀ (tbl : List Nat) (pi : Int) (id : Nat), PlayerInv tbl →
      PlayerInv (SDL_SetJoystickIDForPlayerIndex fuel tbl pi id) := by
  induction fuel with
  | zero => intro tbl pi id h; exact h
  | succ fuel ih =>
    intro tbl pi id h
    simp only [SDL_SetJoystickIDForPlayerIndex]
    split
    · exact h
    · split
      · exact ih _ _ _ (assignPlayerSlot_inv tbl pi id h)
      · exact assignPlayerSlot_inv tbl pi id h

theorem getID_findFree (tbl : List Nat) :
    SDL_GetJoystickIDForPlayerIndex tbl (SDL_FindFreePlayerIndex tbl : Int) = 0 := by
  unfold SDL_GetJoystickIDForPlayerIndex SDL_FindFreePlayerIndex
  by_cases hlt : tbl.findIdx (· == 0) < tbl.length
  · rw [if_neg (by omega)]
    have hp := @List.findIdx_getElem _ (· == 0) tbl hlt
    simp only [beq_iff_eq] at hp
    have hg : tbl.getD (tbl.findIdx (· == 0)) 0 = 0 := by
      rw [List.getD_eq_getElem _ _ hlt, hp]
    simpa using hg
  · rw [if_pos (by omega)]

theorem setID_succ_of_getID_zero (fuel : Nat) (tbl : List Nat) (pi : Int) (id : Nat)
    (h : SDL_GetJoystickIDForPlayerIndex tbl pi = 0) :
    SDL_SetJoystickIDForPlayerIndex (fuel + 1) tbl pi id
      = SDL_SetJoystickIDForPlayerIndex 1 tbl pi id := by
  have hL : SDL_SetJoystickIDForPlayerIndex (fuel + 1) tbl pi id
      = (if ¬((tbl.length : Int) ≤ pi) ∧ 0 ≤ pi ∧ tbl.getD pi.toNat 0 = id then tbl
         else if 0 < SDL_GetJoystickIDForPlayerIndex tbl pi then
           SDL_SetJoystickIDForPlayerIndex fuel (assignPlayerSlot tbl pi id)
             (SDL_FindFreePlayerIndex (assignPlayerSlot tbl pi id))
             (SDL_GetJoystickIDForPlayerIndex tbl pi)
         else assignPlayerSlot tbl pi id) := rfl
  have hR : SDL_SetJoystickIDForPlayerIndex 1 tbl pi id
      = (if ¬((tbl.length : Int) ≤ pi) ∧ 0 ≤ pi ∧ tbl.getD pi.toNat 0 = id then tbl
         else if 0 < SDL_GetJoystickIDForPlayerIndex tbl pi then
           SDL_SetJoystickIDForPlayerIndex 0 (assignPlayerSlot tbl pi id)
             (SDL_FindFreePlayerIndex (assignPlayerSlot tbl pi id))
             (SDL_GetJoystickIDForPlayerIndex tbl pi)
         else assignPlayerSlot tbl pi id) := rfl
  rw [hL, hR, h]
  norm_num

theorem setID_fuel_independent (fuel : Nat) (tbl : List Nat) (pi : Int) (id : Nat) :
    SDL_SetJoystickIDForPlayerIndex (fuel + 2) tbl pi id
      = SDL_SetJoystickIDForPlayerIndex 2 tbl pi id := by
  have hL : SDL_SetJoystickIDForPlayerIndex (fuel + 2) tbl pi id
      = (if ¬((tbl.length : Int) ≤ pi) ∧ 0 ≤ pi ∧ tbl.getD pi.toNat 0 = id then tbl
         else if 0 < SDL_GetJoystickIDForPlayerIndex tbl pi then
           SDL_SetJoystickIDForPlayerIndex (fuel + 1) (assignPlayerSlot tbl pi id)
             (SDL_FindFreePlayerIndex (assignPlayerSlot tbl pi id))
             (SDL_GetJoystickIDForPlayerIndex tbl pi)
         else assignPlayerSlot tbl pi id) := rfl
  have hR : SDL_SetJoystickIDForPlayerIndex 2 tbl pi id
      = (if ¬((tbl.length : Int) ≤ pi) ∧ 0 ≤ pi ∧ tbl.getD pi.toNat 0 = id then tbl
         else if 0 < SDL_GetJoystickIDForPlayerIndex tbl pi then
           SDL_SetJoystickIDForPlayerIndex 1 (assignPlayerSlot tbl pi id)
             (SDL_FindFreePlayerIndex (assignPlayerSlot tbl pi id))
             (SDL_GetJoystickIDForPlayerIndex tbl pi)
         else assignPlayerSlot tbl pi id) := rfl
  rw [hL, hR,
    setID_succ_of_getID_zero fuel (assignPlayerSlot tbl pi id)
      (SDL_FindFreePlayerIndex (assignPlayerSlot tbl pi id))
      (SDL_GetJoystickIDForPlayerIndex tbl pi)
      (getID_findFree (assignPlayerSlot tbl pi id))]

theorem two_le_count_of_getD (l : List Nat) (i j v : Nat) (hij : i < j)
    (hj : j < l.length) (hvi : l.getD i 0 = v) (hvj : l.getD j 0 = v) :
    2 ≤ l.count v := by
  induction l generalizing i j with
  | nil => simp at hj
  | cons a t ih =>
    cases i with
    | zero =>
      rw [List.getD_cons_zero] at hvi
      obtain ⟨j', rfl⟩ : ∃ j', j = j' + 1 := ⟨j - 1, by omega⟩
      rw [List.getD_cons_succ] at hvj
      have hj' : j' < t.length := by simpa using hj
      have hmem : v ∈ t := by
        rw [← hvj, List.getD_eq_getElem _ _ hj']
        exact List.getElem_mem hj'
      have hcnt : 1 ≤ t.count v := List.count_pos_iff.mpr hmem
      rw [List.count_cons]
      simp only [hvi, beq_self_eq_true, if_true]
      omega
    | succ i' =>
      obtain ⟨j', rfl⟩ : ∃ j', j = j' + 1 := ⟨j - 1, by omega⟩
      rw [List.getD_cons_succ] at hvi hvj
      have := ih i' j' (by omega) (by simpa using hj) hvi hvj
      rw [List.count_cons]
      split <;> omega

/-- C2: after any sequence of player-index assignments, (a) a slot is
occupied by at most one non-zero instance id, (b) each non-zero instance id
appears in at most one table slot, and (c) two occupied slots holding the
same non-zero id coincide. -/
theorem c2_player_table_unique (ops : List (Int × Nat)) :
    (∀ i id₁ id₂, occupies (playerRun ops) i id₁ → occupies (playerRun ops) i id₂ →
      id₁ = id₂) ∧
    (∀ id, id ≠ 0 → (playerRun ops).count id ≤ 1) ∧
    (∀ id i j, occupies (playerRun ops) i id → occupies (playerRun ops) j id → i = j) := by
  have hinv : PlayerInv (playerRun ops) := by
    unfold playerRun
    have hgen : ∀ tbl, PlayerInv tbl →
        PlayerInv (ops.foldl
          (fun tbl op => SDL_SetJoystickIDForPlayerIndex 2 tbl op.1 op.2) tbl) := by
      induction ops with
      | nil => intro tbl h; exact h
      | cons op rest ih =>
        intro tbl h
        exact ih _ (setID_inv 2 tbl op.1 op.2 h)
    refine hgen [] ?_
    intro id hid
    simp
  refine ⟨?_, hinv, ?_⟩
  · intro i id₁ id₂ h1 h2
    rw [← h1.2, ← h2.2]
  · intro id i j h1 h2
    have hi : i < (playerRun ops).length := by
      by_contra hle
      have hd := List.getD_eq_default (d := 0) (l := playerRun ops) (n := i) (by omega)
      exact h1.1 (h1.2.symm.trans hd)
    have hj : j < (playerRun ops).length := by
      by_contra hle
      have hd := List.getD_eq_default (d := 0) (l := playerRun ops) (n := j) (by omega)
      exact h2.1 (h2.2.symm.trans hd)
    rcases Nat.lt_trichotomy i j with hlt | heq | hlt
    · have h2c := two_le_count_of_getD (playerRun ops) i j id hlt hj h1.2 h2.2
      have h1c := hinv id h1.1
      omega
    · exact heq
    · have h2c := two_le_count_of_getD (playerRun ops) j i id hlt hi h2.2 h1.2
      have h1c := hinv id h1.1
      omega

/-- Witness for `c2_player_table_unique`: assign id 5 to slot 0, then id 7 to
slot 0 (displacing 5 to the next free slot); check the invariant for ids 5
and 7 and the slot equality for id 7 at slot 0. -/
theorem c2_player_table_unique_witness :
    (playerRun [((0 : Int), 5), ((0 : Int), 7)]).count 7 ≤ 1 ∧
    (playerRun [((0 : Int), 5), ((0 : Int), 7)]).count 5 ≤ 1 ∧
    ((1 : Nat) = 1) := by
  have h := c2_player_table_unique [((0 : Int), 5), ((0 : Int), 7)]
  refine ⟨h.2.1 7 (by decide), h.2.1 5 (by decide), ?_⟩
  exact h.2.2 5 1 1 ⟨by decide, by decide⟩ ⟨by decide, by decide⟩

/-- C3: hot-plug removal of an attached device with two pressed buttons and
one non-centered axis produces the release events for both buttons and the
centering event for the axis (at the axis's recorded `zero` value) before
the removed notification; the handle stays in the list, merely marked
detached, and its player-index slot is cleared. -/
theorem c3_hotplug_removal_ordering :
    SDL_PrivateJoystickRemoved false 1000 [c3Joy] [7] 7 =
      ([{ instance_id := 7, attached := false, is_virtual := false,
          axes := [{ c3Axis with value := 100 }], buttons := [0, 0], hats := [],
          touchpads := [], update_complete := 1000 }],
       [0],
       [JoyEvent.axisMotion 7 0 100, JoyEvent.buttonUp 7 0, JoyEvent.buttonUp 7 1,
        JoyEvent.gamepadRemoved 7, JoyEvent.joystickRemoved 7]) := by
  decide

/-- C4: on a fresh non-virtual axis, a first sample of 100 and a second of 90
are both swallowed by the jitter filter (no initial value has been sent yet);
a jump to 5000 is delivered, preceded by the synthesized initial-value event
carrying 100 produced by the recursive re-invocation. -/
theorem c4_axis_jitter_initial_value :
    (SDL_SendJoystickAxis false 1 c4Joy 0 100).2 = [] ∧
    (SDL_SendJoystickAxis false 2 (SDL_SendJoystickAxis false 1 c4Joy 0 100).1 0 90).2 = [] ∧
    (SDL_SendJoystickAxis false 3
        (SDL_SendJoystickAxis false 2 (SDL_SendJoystickAxis false 1 c4Joy 0 100).1 0 90).1
        0 5000).2
      = [JoyEvent.axisMotion 3 0 100, JoyEvent.axisMotion 3 0 5000] := by
  decide

/-- C5: two successive rumble calls with identical nonzero magnitudes and
nonzero duration at the same tick issue exactly one driver command; the
second call performs no driver call, reports success, and leaves the state
(including the single recorded expiration `now + min(duration, max)`,
clamped to the non-zero sentinel) unchanged. -/
theorem c5_rumble_idempotent (maxDur resendMs : Nat) (s0 : RumbleState)
    (now l h d : Nat)
    (hdiff : ¬(l = s0.low_frequency_rumble ∧ h = s0.high_frequency_rumble))
    (hmag : l ≠ 0 ∨ h ≠ 0) (hd : d ≠ 0) :
    let r1 := SDL_RumbleJoystick maxDur resendMs 0 now s0 l h d
    let r2 := SDL_RumbleJoystick maxDur resendMs 0 now r1.1 l h d
    r1.2.2 = true ∧ r2.2.2 = false ∧ r1.2.1 = 0 ∧ r2.2.1 = 0 ∧
    r2.1 = r1.1 ∧
    r1.1.rumble_expiration =
      (if (now + min d maxDur) % U64 = 0 then 1 else (now + min d maxDur) % U64) := by
  have hc : (l ≠ 0 ∨ h ≠ 0) ∧ d ≠ 0 := ⟨hmag, hd⟩
  simp [SDL_RumbleJoystick, rumbleRecordTimers, hdiff, hc]

/-- Witness for `c5_rumble_idempotent` at a concrete input. -/
theorem c5_rumble_idempotent_witness :
    (¬((1 : Nat) = RumbleState.low_frequency_rumble ⟨0, 0, 0, 0⟩ ∧
       (2 : Nat) = RumbleState.high_frequency_rumble ⟨0, 0, 0, 0⟩)) ∧
    ((1 : Nat) ≠ 0 ∨ (2 : Nat) ≠ 0) ∧ (100 : Nat) ≠ 0 ∧
    (let r1 := SDL_RumbleJoystick 30000 250 0 5 ⟨0, 0, 0, 0⟩ 1 2 100
     let r2 := SDL_RumbleJoystick 30000 250 0 5 r1.1 1 2 100
     r1.2.2 = true ∧ r2.2.2 = false ∧ r1.2.1 = 0 ∧ r2.2.1 = 0 ∧
     r2.1 = r1.1 ∧
     r1.1.rumble_expiration =
       (if (5 + min 100 30000) % U64 = 0 then 1 else (5 + min 100 30000) % U64)) :=
  ⟨by decide, by decide, by decide,
   c5_rumble_idempotent 30000 250 ⟨0, 0, 0, 0⟩ 5 1 2 100 (by decide) (by decide) (by decide)⟩

/-- C6 counterexample: with magnitudes differing from the active ones and a
failing driver command, the resend timer is still recorded (the code sets
`rumble_resend` before inspecting the driver's return value), so "only on
success ... a resend scheduled" is false. -/
theorem c6_resend_on_failure_counterexample :
    (SDL_RumbleJoystick 30000 250 (-1) 0 ⟨0, 0, 0, 0⟩ 1 0 100).2.1 ≠ 0 ∧
    (SDL_RumbleJoystick 30000 250 (-1) 0 ⟨0, 0, 0, 0⟩ 1 0 100).1.rumble_resend ≠ 0 := by
  decide

/-- C6 (amended): a call with magnitudes differing from the active ones
issues the driver command and records the resend timestamp regardless of the
driver's result; only the magnitudes and the expiration
(`now + min(duration, max-duration)` clamped to a non-zero sentinel) are
gated on success; when the call succeeds with zero duration or both
magnitudes zero, both timers are cleared. -/
theorem c6_rumble_change_timers (maxDur resendMs : Nat) (dres : Int) (now : Nat)
    (s : RumbleState) (l h d : Nat) :
    let r := SDL_RumbleJoystick maxDur resendMs dres now s l h d
    (r.2.2 = true ↔ ¬(l = s.low_frequency_rumble ∧ h = s.high_frequency_rumble)) ∧
    (¬(l = s.low_frequency_rumble ∧ h = s.high_frequency_rumble) → dres ≠ 0 →
      r.2.1 = dres ∧ r.1 = { s with rumble_resend := (now + resendMs) % U64 }) ∧
    (¬(l = s.low_frequency_rumble ∧ h = s.high_frequency_rumble) → dres = 0 →
      (l ≠ 0 ∨ h ≠ 0) → d ≠ 0 →
      r.2.1 = 0 ∧
      r.1 = { low_frequency_rumble := l, high_frequency_rumble := h,
              rumble_expiration :=
                if (now + min d maxDur) % U64 = 0 then 1 else (now + min d maxDur) % U64,
              rumble_resend := (now + resendMs) % U64 }) ∧
    (((l = s.low_frequency_rumble ∧ h = s.high_frequency_rumble) ∨ dres = 0) →
      ((l = 0 ∧ h = 0) ∨ d = 0) →
      r.1.rumble_expiration = 0 ∧ r.1.rumble_resend = 0) := by
  by_cases hdiff : l = s.low_frequency_rumble ∧ h = s.high_frequency_rumble <;>
    by_cases hdres : dres = 0 <;>
      by_cases hact : (l ≠ 0 ∨ h ≠ 0) ∧ d ≠ 0 <;>
        simp only [SDL_RumbleJoystick, rumbleRecordTimers, hdiff, hdres, hact, if_true,
          if_false, if_pos, if_neg, not_false_iff, not_true] <;>
        simp_all <;>
        (try tauto) <;>
        (try (split_ifs <;> simp_all))

/-- Witness for `c6_rumble_change_timers` at a concrete input. -/
theorem c6_rumble_change_timers_witness :
    (let r := SDL_RumbleJoystick 30000 250 0 5 ⟨0, 0, 0, 0⟩ 1 2 100
     (r.2.2 = true ↔ ¬((1 : Nat) = 0 ∧ (2 : Nat) = 0)) ∧
     (¬((1 : Nat) = 0 ∧ (2 : Nat) = 0) → (0 : Int) ≠ 0 →
       r.2.1 = 0 ∧ r.1 = { RumbleState.mk 0 0 0 0 with rumble_resend := (5 + 250) % U64 }) ∧
     (¬((1 : Nat) = 0 ∧ (2 : Nat) = 0) → (0 : Int) = 0 →
       ((1 : Nat) ≠ 0 ∨ (2 : Nat) ≠ 0) → (100 : Nat) ≠ 0 →
       r.2.1 = 0 ∧
       r.1 = { low_frequency_rumble := 1, high_frequency_rumble := 2,
               rumble_expiration :=
                 if (5 + min 100 30000) % U64 = 0 then 1 else (5 + min 100 30000) % U64,
               rumble_resend := (5 + 250) % U64 }) ∧
     ((((1 : Nat) = 0 ∧ (2 : Nat) = 0) ∨ (0 : Int) = 0) →
       (((1 : Nat) = 0 ∧ (2 : Nat) = 0) ∨ (100 : Nat) = 0) →
       r.1.rumble_expiration = 0 ∧ r.1.rumble_resend = 0)) :=
  c6_rumble_change_timers 30000 250 0 5 ⟨0, 0, 0, 0⟩ 1 2 100

/-- C10: after any `SDL_SetJoystickLED` call the stored color equals the
arguments, whether or not the driver command was issued and whatever it
returned; consequently an immediately following call with the same color
before the cooldown expires is suppressed (no driver call, success) even if
the driver never successfully received that color. -/
theorem c10_led_color_recorded (minRepeatMs : Nat) (dres1 dres2 : Int)
    (now1 now2 : Nat) (s : LedState) (r g b : Nat) :
    let o1 := SDL_SetJoystickLED minRepeatMs dres1 now1 s r g b
    (o1.1.led_red = r ∧ o1.1.led_green = g ∧ o1.1.led_blue = b) ∧
    (now2 < o1.1.led_expiration →
      SDL_SetJoystickLED minRepeatMs dres2 now2 o1.1 r g b = (o1.1, 0, false)) := by
  set o1 := SDL_SetJoystickLED minRepeatMs dres1 now1 s r g b with ho1
  have hcol : o1.1.led_red = r ∧ o1.1.led_green = g ∧ o1.1.led_blue = b := by
    rw [ho1]; unfold SDL_SetJoystickLED; split <;> simp
  refine ⟨hcol, fun hcool => ?_⟩
  unfold SDL_SetJoystickLED
  rw [if_neg]
  · obtain ⟨h1, h2, h3⟩ := hcol
    rw [← h1, ← h2, ← h3]
  · obtain ⟨h1, h2, h3⟩ := hcol
    simp [h1, h2, h3]
    omega

/-- Witness for `c10_led_color_recorded` at a concrete input (first driver
call fails with `-1`, second call happens one tick later, inside the
cooldown window). -/
theorem c10_led_color_recorded_witness :
    (let o1 := SDL_SetJoystickLED 5000 (-1) 10 ⟨0, 0, 0, 0⟩ 20 30 40
     (o1.1.led_red = 20 ∧ o1.1.led_green = 30 ∧ o1.1.led_blue = 40) ∧
     (11 < o1.1.led_expiration →
       SDL_SetJoystickLED 5000 0 11 o1.1 20 30 40 = (o1.1, 0, false))) :=
  c10_led_color_recorded 5000 (-1) 0 10 11 ⟨0, 0, 0, 0⟩ 20 30 40

/-- C8: an out-of-range index passed to an internal state-change entrypoint
(`SDL_SendJoystickAxis`, `SDL_SendJoystickHat`, `SDL_SendJoystickButton`) is
a silent no-op — unchanged state, no events — while the same index passed to
the direct public queries sets an error and returns the zero default without
touching the backing array. -/
theorem c8_out_of_range_noop_vs_error (ignore : Bool) (ts : Nat) (j : Joystick)
    (junk : Int → Int) (a : Nat) (v : Int) (w : Nat)
    (ha : j.axes.length ≤ a) (hh : j.hats.length ≤ a) (hb : j.buttons.length ≤ a)
    (_hu8 : a < 256) :
    SDL_SendJoystickAxis ignore ts j a v = (j, []) ∧
    SDL_SendJoystickHat ignore ts j a w = (j, []) ∧
    SDL_SendJoystickButton ignore ts j a SDL_PRESSED = (j, []) ∧
    SDL_GetJoystickAxis junk j (a : Int) = (0, true, none) ∧
    SDL_GetJoystickHat junk j (a : Int) = (0, true, none) ∧
    SDL_GetJoystickButton junk j (a : Int) = (0, true, none) := by
  refine ⟨?_, ?_, ?_, ?_, ?_, ?_⟩
  · simp [SDL_SendJoystickAxis, sendAxisFuel, Nat.not_lt.mpr ha]
  · simp [SDL_SendJoystickHat, Nat.not_lt.mpr hh]
  · simp [SDL_SendJoystickButton, SDL_PRESSED, SDL_RELEASED, Nat.not_lt.mpr hb]
  · simp only [SDL_GetJoystickAxis]
    rw [if_neg (by exact_mod_cast Nat.not_lt.mpr ha)]
  · simp only [SDL_GetJoystickHat]
    rw [if_neg (by exact_mod_cast Nat.not_lt.mpr hh)]
  · simp only [SDL_GetJoystickButton]
    rw [if_neg (by exact_mod_cast Nat.not_lt.mpr hb)]

/-- Witness for `c8_out_of_range_noop_vs_error`: index 9 on a device with one
axis, one hat and one button. -/
theorem c8_out_of_range_noop_vs_error_witness :
    SDL_SendJoystickAxis false 1 c9Joy 9 50 = (c9Joy, []) ∧
    SDL_SendJoystickHat false 1 c9Joy 9 4 = (c9Joy, []) ∧
    SDL_SendJoystickButton false 1 c9Joy 9 SDL_PRESSED = (c9Joy, []) ∧
    SDL_GetJoystickAxis (fun _ => 99) c9Joy (9 : Nat) = (0, true, none) ∧
    SDL_GetJoystickHat (fun _ => 99) c9Joy (9 : Nat) = (0, true, none) ∧
    SDL_GetJoystickButton (fun _ => 99) c9Joy (9 : Nat) = (0, true, none) :=
  c8_out_of_range_noop_vs_error false 1 c9Joy (fun _ => 99) 9 50 4
    (by decide) (by decide) (by decide) (by decide)

/-- C9 counterexample: on a device with one axis, the query with index `-1`
does not take the error branch (the guard is only `axis < naxes` on a signed
index), and the backing array is read at the out-of-bounds position `-1`,
yielding the junk value there — refuting "the range guard takes the error
branch exactly when the index is out of the valid range, including negative
index values". -/
theorem c9_negative_index_counterexample :
    ¬(((SDL_GetJoystickAxis (fun _ => 99) c9Joy (-1)).2.1 = true) ↔
      ¬(0 ≤ (-1 : Int) ∧ (-1 : Int) < (c9Joy.axes.length : Int))) ∧
    (SDL_GetJoystickAxis (fun _ => 99) c9Joy (-1)).1 = 99 ∧
    (SDL_GetJoystickAxis (fun _ => 99) c9Joy (-1)).2.2 = some (-1) := by
  decide

/-- C9 (amended): the range guard of `SDL_GetJoystickAxis` / `Hat` / `Button`
takes the error branch exactly when the index is at least the element count;
when an access happens it is at the given index, and that position is inside
the backing array precisely when the index is also non-negative — a negative
index passes the guard and the access is out of bounds. -/
theorem c9_query_guard_bounds (junk : Int → Int) (j : Joystick) (axis hat button : Int) :
    ((SDL_GetJoystickAxis junk j axis).2.1 = true ↔ (j.axes.length : Int) ≤ axis) ∧
    (∀ p, (SDL_GetJoystickAxis junk j axis).2.2 = some p →
      p = axis ∧ ((0 ≤ p ∧ p < (j.axes.length : Int)) ↔ 0 ≤ axis)) ∧
    ((SDL_GetJoystickHat junk j hat).2.1 = true ↔ (j.hats.length : Int) ≤ hat) ∧
    (∀ p, (SDL_GetJoystickHat junk j hat).2.2 = some p →
      p = hat ∧ ((0 ≤ p ∧ p < (j.hats.length : Int)) ↔ 0 ≤ hat)) ∧
    ((SDL_GetJoystickButton junk j button).2.1 = true ↔ (j.buttons.length : Int) ≤ button) ∧
    (∀ p, (SDL_GetJoystickButton junk j button).2.2 = some p →
      p = button ∧ ((0 ≤ p ∧ p < (j.buttons.length : Int)) ↔ 0 ≤ button)) := by
  refine ⟨?_, ?_, ?_, ?_, ?_, ?_⟩ <;>
    simp only [SDL_GetJoystickAxis, SDL_GetJoystickHat, SDL_GetJoystickButton] <;>
    split <;>
    simp_all

/-- Witness for `c9_query_guard_bounds` at index `-1` of `c9Joy`. -/
theorem c9_query_guard_bounds_witness :
    (((SDL_GetJoystickAxis (fun _ => 99) c9Joy (-1)).2.1 = true ↔
       (c9Joy.axes.length : Int) ≤ -1) ∧
     (∀ p, (SDL_GetJoystickAxis (fun _ => 99) c9Joy (-1)).2.2 = some p →
       p = -1 ∧ ((0 ≤ p ∧ p < (c9Joy.axes.length : Int)) ↔ 0 ≤ (-1 : Int))) ∧
     ((SDL_GetJoystickHat (fun _ => 99) c9Joy (-1)).2.1 = true ↔
       (c9Joy.hats.length : Int) ≤ -1) ∧
     (∀ p, (SDL_GetJoystickHat (fun _ => 99) c9Joy (-1)).2.2 = some p →
       p = -1 ∧ ((0 ≤ p ∧ p < (c9Joy.hats.length : Int)) ↔ 0 ≤ (-1 : Int))) ∧
     ((SDL_GetJoystickButton (fun _ => 99) c9Joy (-1)).2.1 = true ↔
       (c9Joy.buttons.length : Int) ≤ -1) ∧
     (∀ p, (SDL_GetJoystickButton (fun _ => 99) c9Joy (-1)).2.2 = some p →
       p = -1 ∧ ((0 ≤ p ∧ p < (c9Joy.buttons.length : Int)) ↔ 0 ≤ (-1 : Int)))) :=
  c9_query_guard_bounds (fun _ => 99) c9Joy (-1) (-1) (-1)

/-- C7 counterexample: the encoder uses the known-VID/PID layout only when
`vendor && product`, i.e. when *both* are nonzero.  For `(vendor, product) =
(1, 0)` — a pair different from `(0, 0)` — the name layout is used and the
decoder does not return the original vendor, refuting the claim as stated. -/
theorem c7_vendor_only_counterexample :
    (SDL_GetJoystickGUIDInfo (SDL_CreateJoystickGUID (fun _ => 0) 3 1 0 9 [] 0 0)).1 = 0 ∧
    (SDL_GetJoystickGUIDInfo (SDL_CreateJoystickGUID (fun _ => 0) 3 1 0 9 [] 0 0)).1 ≠ 1 := by
  decide

/-- C7 (amended): decoding a GUID produced by the encoder returns the
original vendor, product, version and name-CRC16 whenever *both* vendor and
product are nonzero (and the bus is a recognized bus type); when either is
zero the name layout is used instead: the decoded CRC16 still matches the
name's CRC16, and the device name is preserved in the GUID bytes up to the
available space (11 bytes, or 9 when a driver signature is present). -/
theorem c7_guid_roundtrip (crc16 : List Nat → Nat) (bus vendor product version : Nat)
    (name : List Nat) (sig dat : Nat)
    (hbus : bus < 32 ∨ bus = SDL_HARDWARE_BUS_VIRTUAL) :
    (vendor ≠ 0 → product ≠ 0 → vendor < 65536 → product < 65536 → version < 65536 →
      SDL_GetJoystickGUIDInfo
          (SDL_CreateJoystickGUID crc16 bus vendor product version name sig dat)
        = (vendor, product, version, crc16 name % 65536)) ∧
    ((vendor = 0 ∨ product = 0) →
      (SDL_GetJoystickGUIDInfo
          (SDL_CreateJoystickGUID crc16 bus vendor product version name sig dat)).2.2.2
        = crc16 name % 65536 ∧
      ((SDL_CreateJoystickGUID crc16 bus vendor product version name sig dat).drop 4).take
          (min (if sig % 256 ≠ 0 then 9 else 11) name.length)
        = (name.take (if sig % 256 ≠ 0 then 9 else 11)).map (· % 256)) := by
  have hb16 : bus < 65536 := by
    rcases hbus with hb | hb
    · omega
    · rw [hb]; norm_num [SDL_HARDWARE_BUS_VIRTUAL]
  have hc16 : crc16 name % 65536 < 65536 := Nat.mod_lt _ (by norm_num)
  have eb : bus % 65536 = bus := Nat.mod_eq_of_lt hb16
  constructor
  · intro hv hp hv16 hp16 hver16
    have ev : vendor % 65536 = vendor := Nat.mod_eq_of_lt hv16
    have ep : product % 65536 = product := Nat.mod_eq_of_lt hp16
    have ever : version % 65536 = version := Nat.mod_eq_of_lt hver16
    unfold SDL_CreateJoystickGUID
    rw [if_pos ⟨hv, hp⟩, eb, ev, ep, ever]
    unfold SDL_GetJoystickGUIDInfo
    have h0 : guid16 (le16 bus ++ le16 (crc16 name % 65536) ++
        (le16 vendor ++ le16 0 ++ le16 product ++ le16 0 ++ le16 version ++
          [sig % 256, dat % 256])) 0 = bus := by
      show bus % 256 + 256 * (bus / 256 % 256) = bus
      omega
    have h1 : guid16 (le16 bus ++ le16 (crc16 name % 65536) ++
        (le16 vendor ++ le16 0 ++ le16 product ++ le16 0 ++ le16 version ++
          [sig % 256, dat % 256])) 1 = crc16 name % 65536 := by
      show (crc16 name % 65536) % 256 + 256 * ((crc16 name % 65536) / 256 % 256)
        = crc16 name % 65536
      omega
    have h2 : guid16 (le16 bus ++ le16 (crc16 name % 65536) ++
        (le16 vendor ++ le16 0 ++ le16 product ++ le16 0 ++ le16 version ++
          [sig % 256, dat % 256])) 2 = vendor := by
      show vendor % 256 + 256 * (vendor / 256 % 256) = vendor
      omega
    have h3 : guid16 (le16 bus ++ le16 (crc16 name % 65536) ++
        (le16 vendor ++ le16 0 ++ le16 product ++ le16 0 ++ le16 version ++
          [sig % 256, dat % 256])) 3 = 0 := by
      show 0 + 256 * 0 = 0
      rfl
    have h4 : guid16 (le16 bus ++ le16 (crc16 name % 65536) ++
        (le16 vendor ++ le16 0 ++ le16 product ++ le16 0 ++ le16 version ++
          [sig % 256, dat % 256])) 4 = product := by
      show product % 256 + 256 * (product / 256 % 256) = product
      omega
    have h5 : guid16 (le16 bus ++ le16 (crc16 name % 65536) ++
        (le16 vendor ++ le16 0 ++ le16 product ++ le16 0 ++ le16 version ++
          [sig % 256, dat % 256])) 5 = 0 := by
      show 0 + 256 * 0 = 0
      rfl
    have h6 : guid16 (le16 bus ++ le16 (crc16 name % 65536) ++
        (le16 vendor ++ le16 0 ++ le16 product ++ le16 0 ++ le16 version ++
          [sig % 256, dat % 256])) 6 = version := by
      show version % 256 + 256 * (version / 256 % 256) = version
      omega
    rw [h0, h1, h2, h3, h4, h5, h6, if_pos ⟨hbus, rfl, rfl⟩]
  · intro hvp
    have hnot : ¬(vendor ≠ 0 ∧ product ≠ 0) := by tauto
    constructor
    · unfold SDL_CreateJoystickGUID
      rw [if_neg hnot, eb]
      unfold SDL_GetJoystickGUIDInfo
      have h0 : guid16 (le16 bus ++ le16 (crc16 name % 65536) ++
          guidNameTail name sig dat) 0 = bus := by
        show bus % 256 + 256 * (bus / 256 % 256) = bus
        omega
      have h1 : guid16 (le16 bus ++ le16 (crc16 name % 65536) ++
          guidNameTail name sig dat) 1 = crc16 name % 65536 := by
        show (crc16 name % 65536) % 256 + 256 * ((crc16 name % 65536) / 256 % 256)
          = crc16 name % 65536
        omega
      rw [h0, h1]
      by_cases hstd : guid16 (le16 bus ++ le16 (crc16 name % 65536) ++
          guidNameTail name sig dat) 3 = 0 ∧
        guid16 (le16 bus ++ le16 (crc16 name % 65536) ++ guidNameTail name sig dat) 5 = 0
      · rw [if_pos ⟨hbus, hstd⟩]
      · rw [if_neg (by tauto), if_pos hbus]
    · unfold SDL_CreateJoystickGUID
      rw [if_neg hnot]
      show (guidNameTail name sig dat).take _ = _
      unfold guidNameTail
      by_cases hsig : sig % 256 ≠ 0
      · rw [if_pos hsig, if_pos hsig, List.append_assoc,
          List.take_left' (by simp [Nat.min_comm])]
      · rw [if_neg hsig, if_neg hsig, List.take_left' (by simp [Nat.min_comm])]

/-- Witness for `c7_guid_roundtrip` with a nonzero vendor/product pair and,
via a second application, a zero pair with a 13-byte name. -/
theorem c7_guid_roundtrip_witness :
    (SDL_GetJoystickGUIDInfo
        (SDL_CreateJoystickGUID (fun _ => 513) 3 1234 567 89 [65, 66] 104 7)
      = (1234, 567, 89, 513)) ∧
    ((SDL_GetJoystickGUIDInfo
        (SDL_CreateJoystickGUID (fun _ => 513) 3 0 0 9
          [65, 66, 67, 68, 69, 70, 71, 72, 73, 74, 75, 76, 77] 0 0)).2.2.2 = 513) ∧
    (((SDL_CreateJoystickGUID (fun _ => 513) 3 0 0 9
          [65, 66, 67, 68, 69, 70, 71, 72, 73, 74, 75, 76, 77] 0 0).drop 4).take
        (min 11 13)
      = [65, 66, 67, 68, 69, 70, 71, 72, 73, 74, 75]) := by
  have ha := (c7_guid_roundtrip (fun _ => 513) 3 1234 567 89 [65, 66] 104 7
    (by norm_num)).1 (by norm_num) (by norm_num) (by norm_num) (by norm_num) (by norm_num)
  have hb := (c7_guid_roundtrip (fun _ => 513) 3 0 0 9
    [65, 66, 67, 68, 69, 70, 71, 72, 73, 74, 75, 76, 77] 0 0 (by norm_num)).2 (Or.inl rfl)
  refine ⟨ha, hb.1, ?_⟩
  have hc := hb.2
  simpa using hc

end SDLJoy
